import Mathlib

/-!
Verification of the user-name validator in
`shared-lib/user-model/src/parser/user_name.rs`.

Strings are modelled as lists of Unicode scalar values (`List Char`;
Lean's `Char` is a Unicode scalar value, matching Rust's `char`).
`String::trim` is modelled with the Unicode White_Space property, and
`unicode_segmentation::graphemes(true).count()` is modelled by the
UAX #29 extended grapheme cluster segmentation algorithm below.
-/

namespace UserModel

/-- Unicode White_Space property, the set used by Rust's `char::is_whitespace`
and hence by `str::trim`.  The list of code points is the complete
White_Space set of the Unicode character database. -/
def isUnicodeWhitespace (c : Char) : Bool :=
  let n := c.toNat
  decide ((0x09 ≤ n ∧ n ≤ 0x0D) ∨ n = 0x20 ∨ n = 0x85 ∨ n = 0xA0 ∨
    n = 0x1680 ∨ (0x2000 ≤ n ∧ n ≤ 0x200A) ∨ n = 0x2028 ∨ n = 0x2029 ∨
    n = 0x202F ∨ n = 0x205F ∨ n = 0x3000)

/-- Model of Rust's `str::trim`: remove leading and trailing Unicode
whitespace, leaving the interior untouched. -/
def rustTrim (s : List Char) : List Char :=
  ((s.dropWhile isUnicodeWhitespace).reverse.dropWhile isUnicodeWhitespace).reverse

/-- Grapheme_Cluster_Break property values of UAX #29. -/
inductive GCB where
  | CR
  | LF
  | Control
  | Extend
  | ZWJ
  | RI
  | Prepend
  | SpacingMark
  | L
  | V
  | T
  | LV
  | LVT
  | Other
deriving DecidableEq, Repr

/-- Membership of a code point in a list of closed ranges. -/
def inRanges (n : Nat) (rs : List (Nat × Nat)) : Bool :=
  rs.any (fun r => decide (r.1 ≤ n ∧ n ≤ r.2))

/-- Code points with Grapheme_Cluster_Break = Control
(other control and format characters; CR and LF are separate). -/
def controlRanges : List (Nat × Nat) :=
  [(0x00, 0x09), (0x0B, 0x0C), (0x0E, 0x1F), (0x7F, 0x9F), (0xAD, 0xAD),
   (0x61C, 0x61C), (0x180E, 0x180E), (0x200B, 0x200B), (0x200E, 0x200F),
   (0x2028, 0x2028), (0x2029, 0x2029), (0x202A, 0x202E), (0x2060, 0x206F),
   (0xFEFF, 0xFEFF), (0xFFF0, 0xFFFB), (0x1BCA0, 0x1BCA3),
   (0x1D173, 0x1D17A), (0xE0000, 0xE001F), (0xE0080, 0xE00FF)]

/-- Modelled from the spec: the Grapheme_Cluster_Break = Extend property of
the Unicode character database, as shipped with the external
`unicode-segmentation` crate (the crate is a dependency, not part of this
repository).  The table below lists the principal Extend ranges (combining
marks, variation selectors, ZWNJ); rarely used supplementary ranges are
omitted. -/
def extendRanges : List (Nat × Nat) :=
  [(0x300, 0x36F), (0x483, 0x489), (0x591, 0x5BD), (0x5BF, 0x5BF),
   (0x5C1, 0x5C2), (0x5C4, 0x5C5), (0x5C7, 0x5C7), (0x610, 0x61A),
   (0x64B, 0x65F), (0x670, 0x670), (0x6D6, 0x6DC), (0x6DF, 0x6E4),
   (0x6E7, 0x6E8), (0x6EA, 0x6ED), (0x711, 0x711), (0x730, 0x74A),
   (0x7A6, 0x7B0), (0x7EB, 0x7F3), (0x816, 0x819), (0x81B, 0x823),
   (0x825, 0x827), (0x829, 0x82D), (0x859, 0x85B), (0x8D3, 0x8E1),
   (0x8E3, 0x902), (0x93A, 0x93A), (0x93C, 0x93C), (0x941, 0x948),
   (0x94D, 0x94D), (0x951, 0x957), (0x962, 0x963), (0x981, 0x981),
   (0x9BC, 0x9BC), (0x9BE, 0x9BE), (0x9C1, 0x9C4), (0x9CD, 0x9CD),
   (0x9D7, 0x9D7), (0x9E2, 0x9E3), (0xA01, 0xA02), (0xA3C, 0xA3C),
   (0xA41, 0xA42), (0xA47, 0xA48), (0xA4B, 0xA4D), (0xA51, 0xA51),
   (0xA70, 0xA71), (0xA75, 0xA75), (0xA81, 0xA82), (0xABC, 0xABC),
   (0xAC1, 0xAC5), (0xAC7, 0xAC8), (0xACD, 0xACD), (0xB01, 0xB01),
   (0xB3C, 0xB3C), (0xB3E, 0xB3F), (0xB41, 0xB44), (0xB4D, 0xB4D),
   (0xB56, 0xB57), (0xBBE, 0xBBE), (0xBC0, 0xBC0), (0xBCD, 0xBCD),
   (0xBD7, 0xBD7), (0xC00, 0xC00), (0xC3E, 0xC40), (0xC46, 0xC48),
   (0xC4A, 0xC4D), (0xC55, 0xC56), (0xC81, 0xC81), (0xCBC, 0xCBC),
   (0xCBF, 0xCBF), (0xCC2, 0xCC2), (0xCC6, 0xCC6), (0xCCC, 0xCCD),
   (0xCD5, 0xCD6), (0xD01, 0xD01), (0xD3E, 0xD3E), (0xD41, 0xD44),
   (0xD4D, 0xD4D), (0xD57, 0xD57), (0xDCA, 0xDCA), (0xDCF, 0xDCF),
   (0xDD2, 0xDD4), (0xDD6, 0xDD6), (0xDDF, 0xDDF), (0xE31, 0xE31),
   (0xE34, 0xE3A), (0xE47, 0xE4E), (0xEB1, 0xEB1), (0xEB4, 0xEBC),
   (0xEC8, 0xECD), (0xF18, 0xF19), (0xF35, 0xF35), (0xF37, 0xF37),
   (0xF39, 0xF39), (0xF71, 0xF7E), (0xF80, 0xF84), (0xF86, 0xF87),
   (0xF8D, 0xF97), (0xF99, 0xFBC), (0xFC6, 0xFC6), (0x102D, 0x1030),
   (0x1032, 0x1037), (0x1039, 0x103A), (0x103D, 0x103E), (0x1058, 0x1059),
   (0x105E, 0x1060), (0x1071, 0x1074), (0x1082, 0x1082), (0x1085, 0x1086),
   (0x108D, 0x108D), (0x109D, 0x109D), (0x135D, 0x135F), (0x1712, 0x1714),
   (0x1732, 0x1734), (0x1752, 0x1753), (0x1772, 0x1773), (0x17B4, 0x17B5),
   (0x17B7, 0x17BD), (0x17C6, 0x17C6), (0x17C9, 0x17D3), (0x17DD, 0x17DD),
   (0x180B, 0x180D), (0x1885, 0x1886), (0x18A9, 0x18A9), (0x1920, 0x1922),
   (0x1927, 0x1928), (0x1932, 0x1932), (0x1939, 0x193B), (0x1A17, 0x1A18),
   (0x1A1B, 0x1A1B), (0x1AB0, 0x1AC0), (0x1B00, 0x1B03), (0x1B34, 0x1B3A),
   (0x1B3C, 0x1B3C), (0x1B42, 0x1B42), (0x1B6B, 0x1B73), (0x1B80, 0x1B81),
   (0x1BA2, 0x1BA5), (0x1BA8, 0x1BA9), (0x1BAB, 0x1BAD), (0x1BE6, 0x1BE6),
   (0x1BE8, 0x1BE9), (0x1BED, 0x1BED), (0x1BEF, 0x1BF1), (0x1C2C, 0x1C33),
   (0x1C36, 0x1C37), (0x1CD0, 0x1CD2), (0x1CD4, 0x1CE0), (0x1CE2, 0x1CE8),
   (0x1CED, 0x1CED), (0x1CF4, 0x1CF4), (0x1CF8, 0x1CF9), (0x1DC0, 0x1DF9),
   (0x1DFB, 0x1DFF), (0x200C, 0x200C), (0x20D0, 0x20F0), (0x2CEF, 0x2CF1),
   (0x2D7F, 0x2D7F), (0x2DE0, 0x2DFF), (0x302A, 0x302F), (0x3099, 0x309A),
   (0xA66F, 0xA672), (0xA674, 0xA67D), (0xA69E, 0xA69F), (0xA6F0, 0xA6F1),
   (0xA802, 0xA802), (0xA806, 0xA806), (0xA80B, 0xA80B), (0xA825, 0xA826),
   (0xA8C4, 0xA8C5), (0xA8E0, 0xA8F1), (0xA926, 0xA92D), (0xA947, 0xA951),
   (0xA980, 0xA982), (0xA9B3, 0xA9B3), (0xA9B6, 0xA9B9), (0xA9BC, 0xA9BD),
   (0xA9E5, 0xA9E5), (0xAA29, 0xAA2E), (0xAA31, 0xAA32), (0xAA35, 0xAA36),
   (0xAA43, 0xAA43), (0xAA4C, 0xAA4C), (0xAA7C, 0xAA7C), (0xAAB0, 0xAAB0),
   (0xAAB2, 0xAAB4), (0xAAB7, 0xAAB8), (0xAABE, 0xAABF), (0xAAC1, 0xAAC1),
   (0xAAEC, 0xAAED), (0xAAF6, 0xAAF6), (0xABE5, 0xABE5), (0xABE8, 0xABE8),
   (0xABED, 0xABED), (0xFB1E, 0xFB1E), (0xFE00, 0xFE0F), (0xFE20, 0xFE2F),
   (0xFF9E, 0xFF9F), (0x101FD, 0x101FD), (0x1D165, 0x1D165),
   (0x1D167, 0x1D169), (0x1D16E, 0x1D172), (0x1D17B, 0x1D182),
   (0x1D185, 0x1D18B), (0x1D1AA, 0x1D1AD), (0xE0020, 0xE007F),
   (0xE0100, 0xE01EF)]

/-- Code points with Grapheme_Cluster_Break = Prepend (principal ranges). -/
def prependRanges : List (Nat × Nat) :=
  [(0x600, 0x605), (0x6DD, 0x6DD), (0x70F, 0x70F), (0x8E2, 0x8E2),
   (0xD4E, 0xD4E), (0x110BD, 0x110BD), (0x110CD, 0x110CD),
   (0x111C2, 0x111C3), (0x11A3A, 0x11A3A), (0x11A84, 0x11A89),
   (0x11D46, 0x11D46)]

/-- Code points with Grapheme_Cluster_Break = SpacingMark (principal ranges). -/
def spacingMarkRanges : List (Nat × Nat) :=
  [(0x903, 0x903), (0x93B, 0x93B), (0x93E, 0x940), (0x949, 0x94C),
   (0x94E, 0x94F), (0x982, 0x983), (0x9BF, 0x9C0), (0x9C7, 0x9C8),
   (0x9CB, 0x9CC), (0xA03, 0xA03), (0xA3E, 0xA40), (0xA83, 0xA83),
   (0xABE, 0xAC0), (0xAC9, 0xAC9), (0xACB, 0xACC), (0xB02, 0xB03),
   (0xB40, 0xB40), (0xB47, 0xB48), (0xB4B, 0xB4C), (0xBBF, 0xBBF),
   (0xBC1, 0xBC2), (0xBC6, 0xBC8), (0xBCA, 0xBCC), (0xC01, 0xC03),
   (0xC41, 0xC44), (0xC82, 0xC83), (0xCBE, 0xCBE), (0xCC0, 0xCC1),
   (0xCC3, 0xCC4), (0xCC7, 0xCC8), (0xCCA, 0xCCB), (0xD02, 0xD03),
   (0xD3F, 0xD40), (0xD46, 0xD48), (0xD4A, 0xD4C), (0xD82, 0xD83),
   (0xDD0, 0xDD1), (0xDD8, 0xDDE), (0xDF2, 0xDF3), (0xE33, 0xE33),
   (0xEB3, 0xEB3), (0xF3E, 0xF3F), (0xF7F, 0xF7F), (0x1031, 0x1031),
   (0x103B, 0x103C), (0x1056, 0x1057), (0x1084, 0x1084), (0x17B6, 0x17B6),
   (0x17BE, 0x17C5), (0x17C7, 0x17C8), (0x1923, 0x1926), (0x1929, 0x192B),
   (0x1930, 0x1931), (0x1933, 0x1938), (0x1A19, 0x1A1A), (0x1A55, 0x1A55),
   (0x1A57, 0x1A57), (0x1A6D, 0x1A72), (0x1B04, 0x1B04), (0x1B35, 0x1B35),
   (0x1B3B, 0x1B3B), (0x1B3D, 0x1B41), (0x1B43, 0x1B44), (0x1B82, 0x1B82),
   (0x1BA1, 0x1BA1), (0x1BA6, 0x1BA7), (0x1BAA, 0x1BAA)]

/-- Hangul leading consonants (Grapheme_Cluster_Break = L). -/
def hangulLRanges : List (Nat × Nat) :=
  [(0x1100, 0x115F), (0xA960, 0xA97C)]

/-- Hangul vowels (Grapheme_Cluster_Break = V). -/
def hangulVRanges : List (Nat × Nat) :=
  [(0x1160, 0x11A7), (0xD7B0, 0xD7C6)]

/-- Hangul trailing consonants (Grapheme_Cluster_Break = T). -/
def hangulTRanges : List (Nat × Nat) :=
  [(0x11A8, 0x11FF), (0xD7CB, 0xD7FB)]

/-- Extended_Pictographic property (principal emoji ranges), used by rule
GB11 of UAX #29. -/
def extPictRanges : List (Nat × Nat) :=
  [(0xA9, 0xA9), (0xAE, 0xAE), (0x203C, 0x203C), (0x2049, 0x2049),
   (0x2122, 0x2122), (0x2139, 0x2139), (0x2194, 0x2199), (0x21A9, 0x21AA),
   (0x231A, 0x231B), (0x2328, 0x2328), (0x2388, 0x2388), (0x23CF, 0x23CF),
   (0x23E9, 0x23F3), (0x23F8, 0x23FA), (0x24C2, 0x24C2), (0x25AA, 0x25AB),
   (0x25B6, 0x25B6), (0x25C0, 0x25C0), (0x25FB, 0x25FE), (0x2600, 0x27BF),
   (0x2934, 0x2935), (0x2B05, 0x2B07), (0x2B1B, 0x2B1C), (0x2B50, 0x2B50),
   (0x2B55, 0x2B55), (0x3030, 0x3030), (0x303D, 0x303D), (0x3297, 0x3297),
   (0x3299, 0x3299), (0x1F000, 0x1FAFF), (0x1FC00, 0x1FFFD)]

/-- Extended_Pictographic test for a character. -/
def isExtPict (c : Char) : Bool :=
  inRanges c.toNat extPictRanges

/-- Grapheme_Cluster_Break property of a character.  Code points below
U+0300 other than controls are all Other, giving a fast path for ASCII. -/
def gcbOf (c : Char) : GCB :=
  let n := c.toNat
  if n = 0x0D then GCB.CR
  else if n = 0x0A then GCB.LF
  else if inRanges n controlRanges then GCB.Control
  else if n < 0x300 then GCB.Other
  else if n = 0x200D then GCB.ZWJ
  else if inRanges n extendRanges then GCB.Extend
  else if 0x1F1E6 ≤ n ∧ n ≤ 0x1F1FF then GCB.RI
  else if inRanges n prependRanges then GCB.Prepend
  else if inRanges n spacingMarkRanges then GCB.SpacingMark
  else if inRanges n hangulLRanges then GCB.L
  else if inRanges n hangulVRanges then GCB.V
  else if inRanges n hangulTRanges then GCB.T
  else if 0xAC00 ≤ n ∧ n ≤ 0xD7A3 then
    if (n - 0xAC00) % 28 = 0 then GCB.LV else GCB.LVT
  else GCB.Other

/-- Segmentation state between two characters: the property of the previous
character, whether the text so far ends in Extended_Pictographic Extend*
(for GB11), whether the previous character is a ZWJ preceded by such a
sequence (GB11), and whether the trailing run of regional indicators has
odd length (GB12/GB13). -/
structure GState where
  prev : GCB
  pictExt : Bool
  zwjAfterPict : Bool
  riOdd : Bool
deriving DecidableEq, Repr

/-- Rules GB3 to GB999 of UAX #29 (extended grapheme clusters): `true`
means the new character `g` joins the current cluster. -/
def noBreakRule (st : GState) (g : GCB) (ep : Bool) : Bool :=
  match st.prev, g with
  | GCB.CR, GCB.LF => true
  | GCB.Control, _ => false
  | GCB.CR, _ => false
  | GCB.LF, _ => false
  | _, GCB.Control => false
  | _, GCB.CR => false
  | _, GCB.LF => false
  | GCB.L, GCB.L => true
  | GCB.L, GCB.V => true
  | GCB.L, GCB.LV => true
  | GCB.L, GCB.LVT => true
  | GCB.LV, GCB.V => true
  | GCB.LV, GCB.T => true
  | GCB.V, GCB.V => true
  | GCB.V, GCB.T => true
  | GCB.LVT, GCB.T => true
  | GCB.T, GCB.T => true
  | _, GCB.Extend => true
  | _, GCB.ZWJ => true
  | _, GCB.SpacingMark => true
  | GCB.Prepend, _ => true
  | GCB.ZWJ, _ => ep && st.zwjAfterPict
  | GCB.RI, GCB.RI => st.riOdd
  | _, _ => false

/-- State update after consuming a character with property `g` and
Extended_Pictographic status `ep`. -/
def stepState (st : GState) (g : GCB) (ep : Bool) : GState :=
  { prev := g
    pictExt := ep || (st.pictExt && (g == GCB.Extend))
    zwjAfterPict := (g == GCB.ZWJ) && st.pictExt
    riOdd := if g == GCB.RI then !st.riOdd else false }

/-- Tail of the grapheme counter: remaining characters, current state,
clusters counted so far. -/
def graphemeCountGo : List Char → GState → Nat → Nat
  | [], _, acc => acc
  | c :: rest, st, acc =>
    let g := gcbOf c
    let ep := isExtPict c
    graphemeCountGo rest (stepState st g ep)
      (if noBreakRule st g ep then acc else acc + 1)

/-- Modelled from the spec: number of extended grapheme clusters of a text,
the value of `s.graphemes(true).count()` from the external
`unicode-segmentation` crate (UAX #29 extended grapheme cluster
segmentation; the crate is a dependency, not part of this repository). -/
def graphemeCount (s : List Char) : Nat :=
  match s with
  | [] => 0
  | c :: rest =>
    graphemeCountGo rest
      (stepState (GState.mk GCB.Other false false false) (gcbOf c) (isExtPict c)) 1

/-- Modelled from the spec: `UserErrorCode` is declared in the crate's
`errors.rs`, which is not among the provided sources.  The spec describes
the error contract of the validator as a closed sum type with exactly
three cases and no associated data; only the three cases used by
`UserName::parse` are modelled. -/
inductive UserErrorCode where
  | UserNameIsEmpty
  | UserNameTooLong
  | UserNameContainForbiddenCharacters
deriving DecidableEq, Repr

/-- The validated-name wrapper, `pub struct UserName(pub String)`.  The
field is public in the source, so direct construction (`UserName.mk`)
mirrors the construction path `UserName(s)` available to any Rust caller. -/
structure UserName where
  content : List Char
deriving DecidableEq, Repr

/-- Read-only accessor, `impl AsRef<str> for UserName`. -/
def UserName.as_ref (u : UserName) : List Char :=
  u.content

/-- The fixed array of forbidden characters from `UserName::parse`. -/
def forbidden_characters : List Char :=
  ['/', '(', ')', '\"', '<', '>', '\\', '\x7B', '\x7D']

/-- Shallow embedding of `UserName::parse`, check for check in source
order: trimmed emptiness, grapheme count above 256, forbidden scalar
values; on success the input is stored unchanged. -/
def UserName.parse (s : List Char) : Except UserErrorCode UserName :=
  let is_empty_or_whitespace := (rustTrim s).isEmpty
  if is_empty_or_whitespace then
    Except.error UserErrorCode.UserNameIsEmpty
  else
    let is_too_long := graphemeCount s > 256
    if is_too_long then
      Except.error UserErrorCode.UserNameTooLong
    else
      let contains_forbidden_characters :=
        s.any (fun g => forbidden_characters.contains g)
      if contains_forbidden_characters then
        Except.error UserErrorCode.UserNameContainForbiddenCharacters
      else
        Except.ok (UserName.mk s)

/-! ### Helper lemmas -/

set_option maxRecDepth 20000

/-- Success case of `parse`, phrased with the three checks of the source. -/
theorem parse_intro_ok (s : List Char)
    (h1 : (rustTrim s).isEmpty = false)
    (h2 : ¬ graphemeCount s > 256)
    (h3 : (s.any fun g => forbidden_characters.contains g) = false) :
    UserName.parse s = Except.ok (UserName.mk s) := by
  unfold UserName.parse
  rw [h1, h3]
  simp [h2]

/-- Inversion of a successful `parse`: all three checks passed and the
stored content is the input, unchanged. -/
theorem parse_ok_elim {s : List Char} {u : UserName}
    (h : UserName.parse s = Except.ok u) :
    (rustTrim s).isEmpty = false ∧ ¬ graphemeCount s > 256 ∧
      (s.any fun g => forbidden_characters.contains g) = false ∧
      u = UserName.mk s := by
  unfold UserName.parse at h
  by_cases e1 : (rustTrim s).isEmpty
  · simp [e1] at h
  · by_cases e2 : graphemeCount s > 256
    · simp [e1, e2] at h
    · by_cases e3 : (s.any fun g => forbidden_characters.contains g)
      · rw [Bool.not_eq_true] at e1
        rw [e1, e3] at h
        simp [e2] at h
      · rw [Bool.not_eq_true] at e1 e3
        rw [e1, e3] at h
        simp [e2] at h
        exact ⟨e1, e2, e3, h.symm⟩

/-- Membership absence transfers to the boolean forbidden-character scan. -/
theorem any_forbidden_eq_false {s : List Char}
    (h : ∀ c ∈ s, c ∉ forbidden_characters) :
    s.any (fun g => forbidden_characters.contains g) = false := by
  rw [List.any_eq_false]
  intro c hc
  simpa [List.contains, List.elem_iff] using h c hc

/-- A trimmed list is nonempty exactly when its `isEmpty` flag is `false`. -/
theorem trim_isEmpty_false {s : List Char} (h : rustTrim s ≠ []) :
    (rustTrim s).isEmpty = false := by
  simpa [List.isEmpty_iff] using h

/-- A list of whitespace characters trims to the empty list. -/
theorem rustTrim_eq_nil_of_whitespace {s : List Char}
    (h : ∀ c ∈ s, isUnicodeWhitespace c = true) :
    rustTrim s = [] := by
  have h1 : s.dropWhile isUnicodeWhitespace = [] :=
    List.dropWhile_eq_nil_iff.mpr h
  simp [rustTrim, h1]

/-! ### Claims -/

/-- C1: for every text `t` with `trim(t)` nonempty, at most 256 grapheme
clusters, and no scalar value in the forbidden set, `parse` succeeds and
the stored content, as exposed by the read-only accessor, is `t` itself,
with no trimming or normalization applied. -/
theorem parse_valid_input_ok (s : List Char)
    (h1 : rustTrim s ≠ [])
    (h2 : graphemeCount s ≤ 256)
    (h3 : ∀ c ∈ s, c ∉ forbidden_characters) :
    UserName.parse s = Except.ok (UserName.mk s) ∧
      (UserName.mk s).as_ref = s :=
  ⟨parse_intro_ok s (trim_isEmpty_false h1) (Nat.not_lt.mpr h2)
    (any_forbidden_eq_false h3), rfl⟩

/-- Witness for C1 at the concrete input "nathan". -/
theorem parse_valid_input_ok_witness :
    UserName.parse ['n', 'a', 't', 'h', 'a', 'n'] =
        Except.ok (UserName.mk ['n', 'a', 't', 'h', 'a', 'n']) ∧
      (UserName.mk ['n', 'a', 't', 'h', 'a', 'n']).as_ref =
        ['n', 'a', 't', 'h', 'a', 'n'] :=
  parse_valid_input_ok ['n', 'a', 't', 'h', 'a', 'n']
    (by decide) (by decide) (by decide)

/-- C2 counterexample: 257 spaces has more than 256 grapheme clusters, yet
`parse` classifies it as `UserNameIsEmpty`, not `UserNameTooLong`, because
the emptiness check runs first. -/
theorem parse_overlong_whitespace_cex :
    graphemeCount (List.replicate 257 ' ') > 256 ∧
      UserName.parse (List.replicate 257 ' ') =
        Except.error UserErrorCode.UserNameIsEmpty ∧
      UserName.parse (List.replicate 257 ' ') ≠
        Except.error UserErrorCode.UserNameTooLong := by
  have hIsEmpty : UserName.parse (List.replicate 257 ' ') =
      Except.error UserErrorCode.UserNameIsEmpty := rfl
  exact ⟨by decide, hIsEmpty, fun h =>
    UserErrorCode.noConfusion (Except.error.inj (hIsEmpty.symm.trans h))⟩

/-- C2 amended: for every text `t` with `trim(t)` nonempty and more than
256 grapheme clusters, `parse` fails with `UserNameTooLong`, regardless of
forbidden-character status. -/
theorem parse_too_long (s : List Char)
    (h1 : rustTrim s ≠ [])
    (h2 : graphemeCount s > 256) :
    UserName.parse s = Except.error UserErrorCode.UserNameTooLong := by
  simp [UserName.parse, trim_isEmpty_false h1, h2]

/-- Witness for the amended C2: 257 plain letters, one of them a forbidden
slash, is rejected as too long. -/
theorem parse_too_long_witness :
    UserName.parse ('/' :: List.replicate 256 'a') =
      Except.error UserErrorCode.UserNameTooLong :=
  parse_too_long ('/' :: List.replicate 256 'a') (by decide) (by decide)

/-- Decidable equality of parse results, used to evaluate concrete runs. -/
instance : DecidableEq (Except UserErrorCode UserName) := fun a b =>
  match a, b with
  | Except.ok x, Except.ok y =>
    if h : x = y then isTrue (by rw [h])
    else isFalse fun hh => h (Except.ok.inj hh)
  | Except.ok _, Except.error _ => isFalse fun hh => Except.noConfusion hh
  | Except.error _, Except.ok _ => isFalse fun hh => Except.noConfusion hh
  | Except.error x, Except.error y =>
    if h : x = y then isTrue (by rw [h])
    else isFalse fun hh => h (Except.error.inj hh)

/-- C3 counterexample: the wrapped field of `UserName` is public
(`pub struct UserName(pub String)`), so a `UserName` can be constructed
directly, bypassing validation; here is one whose content contains a
forbidden character and would be rejected by `parse`. -/
theorem userName_direct_construction_cex :
    ((UserName.mk ['/']).as_ref.any fun g =>
        forbidden_characters.contains g) = true ∧
      UserName.parse ((UserName.mk ['/']).as_ref) =
        Except.error UserErrorCode.UserNameContainForbiddenCharacters :=
  ⟨rfl, rfl⟩

/-- C3 amended: every `UserName` obtained from `parse` stores the input
unchanged and its content satisfies all three validation rules; the
guarantee is limited to values produced by `parse`, since the public
field admits direct construction. -/
theorem parse_ok_establishes_invariant (s : List Char) (u : UserName)
    (h : UserName.parse s = Except.ok u) :
    u.as_ref = s ∧ rustTrim u.as_ref ≠ [] ∧
      graphemeCount u.as_ref ≤ 256 ∧
      ∀ c ∈ u.as_ref, c ∉ forbidden_characters := by
  obtain ⟨e1, e2, e3, rfl⟩ := parse_ok_elim h
  simp only [UserName.as_ref]
  refine ⟨trivial, ?_, Nat.not_lt.mp e2, ?_⟩
  · intro hnil
    rw [hnil] at e1
    simp at e1
  · intro c hc hmem
    have hfalse := List.any_eq_false.mp e3 c hc
    exact hfalse (by simpa [List.contains, List.elem_iff] using hmem)

/-- Witness for the amended C3 at the concrete input "n". -/
theorem parse_ok_establishes_invariant_witness :
    (UserName.mk ['n']).as_ref = ['n'] ∧
      rustTrim (UserName.mk ['n']).as_ref ≠ [] ∧
      graphemeCount (UserName.mk ['n']).as_ref ≤ 256 ∧
      ∀ c ∈ (UserName.mk ['n']).as_ref, c ∉ forbidden_characters :=
  parse_ok_establishes_invariant ['n'] (UserName.mk ['n']) rfl

/-- C4: a text with nonempty trim, at most 256 grapheme clusters, and at
least one forbidden scalar value is rejected with
`UserNameContainForbiddenCharacters`; in particular each of the nine
forbidden characters, as a one-character string, is so rejected. -/
theorem parse_forbidden_character (s : List Char)
    (h1 : rustTrim s ≠ [])
    (h2 : graphemeCount s ≤ 256)
    (h3 : ∃ c ∈ s, c ∈ forbidden_characters) :
    UserName.parse s =
        Except.error UserErrorCode.UserNameContainForbiddenCharacters ∧
      ∀ c ∈ forbidden_characters,
        UserName.parse [c] =
          Except.error UserErrorCode.UserNameContainForbiddenCharacters := by
  constructor
  · have e3 : (s.any fun g => forbidden_characters.contains g) = true := by
      rw [List.any_eq_true]
      obtain ⟨c, hc, hmem⟩ := h3
      exact ⟨c, hc, by simpa [List.contains, List.elem_iff] using hmem⟩
    unfold UserName.parse
    rw [trim_isEmpty_false h1, e3]
    simp [Nat.not_lt.mpr h2]
  · decide

/-- Witness for C4 at the concrete input "foo/bar". -/
theorem parse_forbidden_character_witness :
    UserName.parse ['f', 'o', 'o', '/', 'b', 'a', 'r'] =
        Except.error UserErrorCode.UserNameContainForbiddenCharacters ∧
      ∀ c ∈ forbidden_characters,
        UserName.parse [c] =
          Except.error UserErrorCode.UserNameContainForbiddenCharacters :=
  parse_forbidden_character ['f', 'o', 'o', '/', 'b', 'a', 'r']
    (by decide) (by decide) (by decide)

/-- C5: a text whose trim (leading and trailing Unicode whitespace
stripped) is empty is rejected with `UserNameIsEmpty`. -/
theorem parse_empty_input (s : List Char)
    (h : rustTrim s = []) :
    UserName.parse s = Except.error UserErrorCode.UserNameIsEmpty := by
  unfold UserName.parse
  rw [h]
  simp

/-- Witness for C5 at the concrete whitespace-only input "   ". -/
theorem parse_empty_input_witness :
    UserName.parse [' ', ' ', ' '] =
      Except.error UserErrorCode.UserNameIsEmpty :=
  parse_empty_input [' ', ' ', ' '] (by decide)

/-- C6: boundary of the length check.  256 clusters of a base letter plus
combining mark (U+0310) pass; 257 such clusters fail with
`UserNameTooLong`; the count is over grapheme clusters of the original,
untrimmed input, as shown by a leading space pushing 256 letters over the
limit. -/
theorem parse_length_boundary :
    UserName.parse (List.flatten (List.replicate 256 ['a', Char.ofNat 0x310])) =
        Except.ok (UserName.mk
          (List.flatten (List.replicate 256 ['a', Char.ofNat 0x310]))) ∧
      graphemeCount
        (List.flatten (List.replicate 256 ['a', Char.ofNat 0x310])) = 256 ∧
      UserName.parse (List.flatten (List.replicate 257 ['a', Char.ofNat 0x310])) =
        Except.error UserErrorCode.UserNameTooLong ∧
      graphemeCount
        (List.flatten (List.replicate 257 ['a', Char.ofNat 0x310])) = 257 ∧
      graphemeCount (' ' :: List.replicate 256 'a') = 257 ∧
      UserName.parse (' ' :: List.replicate 256 'a') =
        Except.error UserErrorCode.UserNameTooLong :=
  ⟨rfl, by decide, rfl, by decide, by decide, rfl⟩

/-- C7: every run of `parse` either succeeds or fails with exactly one of
the three payload-free classifications; nothing else is ever produced. -/
theorem parse_error_classification (s : List Char) :
    (∃ u, UserName.parse s = Except.ok u) ∨
      UserName.parse s = Except.error UserErrorCode.UserNameIsEmpty ∨
      UserName.parse s = Except.error UserErrorCode.UserNameTooLong ∨
      UserName.parse s =
        Except.error UserErrorCode.UserNameContainForbiddenCharacters := by
  cases h : UserName.parse s with
  | ok u => exact Or.inl ⟨u, rfl⟩
  | error e =>
    cases e with
    | UserNameIsEmpty => exact Or.inr (Or.inl rfl)
    | UserNameTooLong => exact Or.inr (Or.inr (Or.inl rfl))
    | UserNameContainForbiddenCharacters =>
      exact Or.inr (Or.inr (Or.inr rfl))

/-- C8: `parse` is deterministic, a pure function of its input: equal
inputs give equal results (in this embedding `parse` reads and writes no
state besides its argument and the fixed forbidden-character list). -/
theorem parse_deterministic (s t : List Char) (h : s = t) :
    UserName.parse s = UserName.parse t :=
  congrArg UserName.parse h

/-- Witness for C8 at the concrete input "n". -/
theorem parse_deterministic_witness :
    UserName.parse ['n'] = UserName.parse ['n'] :=
  parse_deterministic ['n'] ['n'] rfl

/-- C9: a whitespace-only input is rejected with `UserNameIsEmpty` even
when its grapheme count exceeds 256, because the emptiness check runs
before the length check. -/
theorem parse_whitespace_only_isEmpty (s : List Char)
    (h : ∀ c ∈ s, isUnicodeWhitespace c = true) :
    UserName.parse s = Except.error UserErrorCode.UserNameIsEmpty := by
  unfold UserName.parse
  rw [rustTrim_eq_nil_of_whitespace h]
  simp

/-- Witness for C9: 257 spaces exceed the length limit yet are classified
`UserNameIsEmpty`. -/
theorem parse_whitespace_only_isEmpty_witness :
    graphemeCount (List.replicate 257 ' ') > 256 ∧
      UserName.parse (List.replicate 257 ' ') =
        Except.error UserErrorCode.UserNameIsEmpty :=
  ⟨by decide, parse_whitespace_only_isEmpty (List.replicate 257 ' ')
    (by decide)⟩

/-- C10: `parse` is total — on every input it returns either a validated
name or an error value; there is no other outcome. -/
theorem parse_total (s : List Char) :
    (∃ u, UserName.parse s = Except.ok u) ∨
      ∃ e, UserName.parse s = Except.error e := by
  cases h : UserName.parse s with
  | ok u => exact Or.inl ⟨u, rfl⟩
  | error e => exact Or.inr ⟨e, rfl⟩

end UserModel
